import Mathlib

/-!
# Shallow embedding of `debug.js`

`debug.js` is a developer-machine diagnostic script: it runs a fixed ordered
list of sections (System, Node, Git), each a flat sequence of checks that
query the environment (subprocesses, filesystem, DNS, one HTTPS GET) and
print result lines, some marked as warnings or errors.

The embedding models the outside world explicitly: subprocess execution is a
function `String → Except JsErr String` from command text to either the raw
standard output or a failure (non-zero exit / spawn failure), filesystem and
network operations are `Except`-valued inputs, and each section body is a
pure function from such a world to the list of lines it prints paired with
the error it propagates, if any (`none` when the body runs to completion).
Printed lines are modelled by their visible text: the `chalk` library only
adds terminal colour codes around the text and is dropped.
-/

namespace DebugScript

/-- Failures raised by the JavaScript runtime as modelled here: a subprocess
exiting non-zero, a subprocess that could not be spawned, a filesystem entry
that does not exist (`ENOENT`), the `RangeError` thrown by
`String.prototype.repeat` on a negative count, and any other error. -/
inductive JsErr
  | nonZeroExit
  | spawnFailure
  | noEnt
  | rangeError
  | otherErr
  deriving DecidableEq, Repr

/-- Failures of the network probes: the reasons an `axios.get` or a
`dns.resolve` call can throw. -/
inductive NetErr
  | timeout
  | tlsFailure
  | dnsFailure
  | nonSuccessStatus
  | otherNetErr
  deriving DecidableEq, Repr

/-- One printed report line: `console.log` output, an `error`-helper line
(rendered red with a `→ ` prefix on stderr), or a warning line (the `warn`
helper or a direct `console.warn`). -/
inductive Line
  | log (s : String)
  | errorLine (s : String)
  | warnLine (s : String)
  deriving DecidableEq, Repr

/-- `true` on the whitespace characters removed by JavaScript
`String.prototype.trim` that can occur in subprocess output. -/
def isWs (c : Char) : Bool :=
  c == ' ' || c == '\t' || c == '\n' || c == '\r'

/-- Strip leading and trailing whitespace characters from a character list. -/
def trimChars (l : List Char) : List Char :=
  ((l.dropWhile isWs).reverse.dropWhile isWs).reverse

/-- JavaScript `String.prototype.trim`. -/
def jsTrim (s : String) : String :=
  ⟨trimChars s.data⟩

/-- The Shell Executor: `const exec = command => cp.execSync(command).toString().trim()`.
`run` is the subprocess world: raw standard output on success, or the failure
`execSync` raises (non-zero exit or spawn error), which `exec` propagates. -/
def exec (run : String → Except JsErr String) (command : String) :
    Except JsErr String :=
  (run command).map jsTrim

/-- `ping(url)`: issues `axios.get(url)` with TLS certificate validation
disabled (`rejectUnauthorized: false`); the whole call is wrapped in
`try { ...; return true } catch { return false }`, so it never raises.
`get` is the network world: the outcome of the GET request per URL. -/
def ping (get : String → Except NetErr Unit) (url : String) : Bool :=
  match get url with
  | .ok _ => true
  | .error _ => false

/-- `hasInternetAccess()`: `dns.resolve('www.google.com')` wrapped in
`try { ...; return true } catch { return false }`. `resolve` is the DNS
world: the addresses resolved per hostname, or the resolution error. -/
def hasInternetAccess (resolve : String → Except NetErr (List String)) :
    Bool :=
  match resolve "www.google.com" with
  | .ok _ => true
  | .error _ => false

/-- `isDockerRunning()`: `cp.execSync('docker version', { stdio: 'ignore' })`
wrapped in `try { ...; return true } catch { return false }`. -/
def isDockerRunning (run : String → Except JsErr String) : Bool :=
  match run "docker version" with
  | .ok _ => true
  | .error _ => false

/-! ## Section renderer -/

/-- A section body outcome: the lines it printed before finishing or
failing, and the error it propagated (`none` when it completed). -/
abbrev BodyResult := List Line × Option JsErr

/-- A string of `n` copies of `c`, JavaScript `c.repeat(n)` for `n ≥ 0`. -/
def repeatChar (c : Char) (n : Nat) : String :=
  ⟨List.replicate n c⟩

/-- The section renderer (`section` in the source; `section` is reserved in
Lean). `width` is `process.stdout.columns` at render time: `some W` on a
terminal, `none` when the stream reports no column count. With `none`, both
`'='.repeat(WIDTH)` and `' '.repeat(WIDTH - name.length - 4)` coerce their
`NaN` count to zero repeats and yield empty strings. With `some W`, when
`W - name.length - 4` is negative, `' '.repeat` throws a `RangeError` after
the first divider was printed and before the body is invoked; otherwise the
three banner lines are printed, the body runs, and a final blank line is
printed unless the body itself propagated an error. -/
def sectionRender (width : Option Nat) (name : String) (body : BodyResult) :
    List Line × Option JsErr :=
  match width with
  | none =>
      match body with
      | (ls, some e) =>
          ([Line.log "", Line.log ("* " ++ name ++ " *"), Line.log ""]
            ++ ls, some e)
      | (ls, none) =>
          ([Line.log "", Line.log ("* " ++ name ++ " *"), Line.log ""]
            ++ ls ++ [Line.log ""], none)
  | some W =>
      let line := repeatChar '=' W
      if name.length + 4 > W then
        ([Line.log line], some JsErr.rangeError)
      else
        let middle :=
          "* " ++ name ++ repeatChar ' ' (W - name.length - 4) ++ " *"
        match body with
        | (ls, some e) =>
            ([Line.log line, Line.log middle, Line.log line] ++ ls, some e)
        | (ls, none) =>
            ([Line.log line, Line.log middle, Line.log line] ++ ls
              ++ [Line.log ""], none)

/-! ## Library behaviour used by the Node section -/

/-- JavaScript `s.slice(n)` for the ASCII strings this script slices: drop
the first `n` characters. -/
def jsSlice (s : String) (n : Nat) : String :=
  ⟨s.data.drop n⟩

/-- The value of a non-empty all-digit character list, `none` otherwise. -/
def decDigits? (l : List Char) : Option Nat :=
  if l.isEmpty then none
  else l.foldl (fun acc c => acc.bind fun n =>
    if c.isDigit then some (n * 10 + (c.toNat - 48)) else none) (some 0)

/-- Split a character list on `'.'` separators. -/
def splitOnDot : List Char → List (List Char)
  | [] => [[]]
  | c :: rest =>
      match splitOnDot rest with
      | [] => if c = '.' then [[], []] else [[c]]
      | h :: t => if c = '.' then [] :: h :: t else (c :: h) :: t

/-- Parse a semantic version string `"v12.18.3"` or `"12.18.3"` into its
major/minor/patch triple; `none` when the string is not of this plain form.
Models the `semver` package's parsing for the plain version strings this
script uses (no prerelease tags, no range operators). -/
def parseSemver (s : String) : Option (Nat × Nat × Nat) :=
  let chars := match s.data with
    | 'v' :: rest => rest
    | l => l
  match (splitOnDot chars).map decDigits? with
  | [some a, some b, some c] => some (a, b, c)
  | _ => none

/-- `semver.satisfies(version, range)` for the one range form the script
uses: a plain version string, which `semver` reads as the exact comparator
`=major.minor.patch`. `false` when `version` does not parse. -/
def satisfies (version range : String) : Bool :=
  match parseSemver version, parseSemver range with
  | some a, some b => a == b
  | _, _ => false

/-- Milliseconds per day. -/
def msPerDay : Nat := 86400000

/-- `moment(now).diff(moment(birth), 'days')`: the elapsed whole days
between the two millisecond timestamps, truncated (moment truncates the
fractional day toward zero; the script only ever diffs a past timestamp
against the current time, so the difference is non-negative). -/
def diffDays (nowMs birthMs : Nat) : Nat :=
  (nowMs - birthMs) / msPerDay

/-- `moment(birth).fromNow()` at whole-day granularity: the humanized
relative-time text for an install `d` whole days in the past. The exact
wording is informational only; no check reads it back. -/
def fromNow (d : Nat) : String :=
  if d = 0 then "a few hours ago"
  else if d = 1 then "a day ago"
  else toString d ++ " days ago"

/-- JavaScript `Number(s)` on a trimmed string, restricted to the integer
outputs the script can meet (`wc -l` prints a decimal count): `""` converts
to `0`, a decimal integer to its value, anything else to `NaN` (`none`). -/
def jsNumber (s : String) : Option Int :=
  if s = "" then some 0
  else match s.data with
    | '-' :: rest => (decDigits? rest).map fun n => -(n : Int)
    | l => (decDigits? l).map fun n => (n : Int)

/-- How `console.log` prints a JavaScript number. -/
def showJsNumber : Option Int → String
  | some n => toString n
  | none => "NaN"

/-- How `console.log` prints `process.env.X`: the value, or `undefined`. -/
def showEnvVar : Option String → String
  | some s => s
  | none => "undefined"

/-! ## The Node section -/

/-- The world the Node section reads: the subprocess outcomes (raw standard
output per command), the `birthtime` (ms) from `fs.stat('./node_modules/moment')`,
the entries from `fs.readdir('./node_modules')`, `process.env.NODE_ENV`, and
the current time in milliseconds. -/
structure NodeWorld where
  run : String → Except JsErr String
  statMomentBirth : Except JsErr Nat
  readdirNodeModules : Except JsErr (List String)
  nodeEnvVar : Option String
  nowMs : Nat

/-- The message of the first version-mismatch error line. -/
def mismatchMsg (nodeVersion expected : String) : String :=
  "Installed Node version (" ++ nodeVersion
    ++ ") does not satisfy expectations (" ++ expected ++ "); please update."

/-- The two stale-install warning lines. -/
def staleWarnLines : List Line :=
  [Line.warnLine "The last node_modules install is over a week old.",
   Line.warnLine "Consider reinstalling dependencies: `npm ci`."]

/-- The two missing-nvm error lines. -/
def nvmMissingLines : List Line :=
  [Line.errorLine "Node version manager missing; please install nvm.",
   Line.errorLine "https://github.com/nvm-sh/nvm"]

/-- The body of the Node section (source lines 102–136). All values are
computed first, in source order — `exec('node -v')`, `exec('echo $NVM_DIR')`,
`stat('./node_modules/moment')` — before anything is printed, so a failure
of any of them aborts the section with no line printed; then the checks
print in order, with `exec('npm -v')` and `readdir('./node_modules')`
evaluated at their print sites. -/
def nodeSection (w : NodeWorld) : List Line × Option JsErr :=
  match exec w.run "node -v" with
  | .error e => ([], some e)
  | .ok nodeVersion =>
    let expected := "v12.18.3"
    match exec w.run "echo $NVM_DIR" with
    | .error e => ([], some e)
    | .ok nvmOut =>
      let hasNvm := nvmOut != ""
      match w.statMomentBirth with
      | .error e => ([], some e)
      | .ok birth =>
        let d := diffDays w.nowMs birth
        let oldInstall := d ≥ 7
        let versionLines :=
          [Line.log ("Version: " ++ nodeVersion)]
            ++ (if satisfies nodeVersion expected then []
                else [Line.errorLine (mismatchMsg nodeVersion expected),
                      Line.errorLine ("nvm install " ++ jsSlice expected 2)])
        match exec w.run "npm -v" with
        | .error e => (versionLines, some e)
        | .ok npmVersion =>
          let nvmLines :=
            [Line.log ("npm: " ++ npmVersion),
             Line.log ("nvm: " ++ toString hasNvm)]
              ++ (if hasNvm then [] else nvmMissingLines)
              ++ [Line.log ("Env: " ++ showEnvVar w.nodeEnvVar)]
          match w.readdirNodeModules with
          | .error e => (versionLines ++ nvmLines, some e)
          | .ok entries =>
            (versionLines ++ nvmLines
              ++ [Line.log ("Modules: " ++ toString entries.length),
                  Line.log ("Installed: " ++ fromNow d)]
              ++ (if oldInstall then staleWarnLines else []), none)

/-! ## The Git section -/

/-- The world the Git section reads: the subprocess outcomes per command. -/
structure GitWorld where
  run : String → Except JsErr String

/-- The shell pipeline computing the divergence count for `branch`. -/
def logCountCmd (branch : String) : String :=
  "git log --oneline " ++ branch ++ " ^develop | wc -l"

/-- The rebase warning printed by `console.warn`. -/
def rebaseWarn (branch : String) (difference : Option Int) : Line :=
  Line.warnLine
    ("The local branch (" ++ branch ++ ") is over 10 commits apart ("
      ++ showJsNumber difference ++ ") from develop; consider rebasing.")

/-- The body of the Git section (source lines 138–156): reads the current
branch, computes `Number` of the piped `git log ... | wc -l` count, prints
branch and difference, warns when the difference strictly exceeds the
threshold 10 (a `NaN` difference compares false), then prints the last
commit message (trimmed a second time) and whether `git status --porcelain`
output is empty. -/
def gitSection (w : GitWorld) : List Line × Option JsErr :=
  match exec w.run "git branch --show-current" with
  | .error e => ([], some e)
  | .ok branch =>
    match exec w.run (logCountCmd branch) with
    | .error e => ([], some e)
    | .ok countOut =>
      let difference := jsNumber countOut
      let threshold : Int := 10
      let headLines :=
        [Line.log ("Branch: " ++ branch),
         Line.log ("Difference: " ++ showJsNumber difference)]
          ++ (match difference with
              | some n => if n > threshold then [rebaseWarn branch difference] else []
              | none => [])
      match exec w.run "git log -1 --pretty=%B" with
      | .error e => (headLines, some e)
      | .ok lastCommit =>
        match exec w.run "git status --porcelain" with
        | .error e =>
            (headLines ++ [Line.log ("Last commit: " ++ jsTrim lastCommit)],
             some e)
        | .ok status =>
            (headLines
              ++ [Line.log ("Last commit: " ++ jsTrim lastCommit),
                  Line.log ("Clean: " ++ toString (status == ""))], none)

/-! ## Line classifiers -/

/-- `true` on warning lines. -/
def isWarnLine : Line → Bool
  | .warnLine _ => true
  | _ => false

/-- `true` on error lines. -/
def isErrorLine : Line → Bool
  | .errorLine _ => true
  | _ => false

/-- `true` when `needle` occurs as a contiguous substring of `hay`. -/
def containsSub (hay needle : String) : Bool :=
  (List.range (hay.length + 1)).any
    fun i => needle.data.isPrefixOf (hay.data.drop i)

/-- `true` when the string neither starts nor ends with a whitespace
character. -/
def noEdgeWs (s : String) : Bool :=
  s.data.head?.all (fun c => !isWs c) && s.data.getLast?.all (fun c => !isWs c)

/-! ## Helper lemmas about trimming -/

theorem head?_dropWhile_not (p : α → Bool) (l : List α) :
    ((l.dropWhile p).head?.all fun c => !p c) = true := by
  induction l with
  | nil => rfl
  | cons a l ih =>
      rw [List.dropWhile_cons]
      by_cases h : p a = true
      · simpa [h] using ih
      · have hb : p a = false := by simpa using h
        simp [hb]

theorem getLast?_dropWhile_eq (p : α → Bool) (l : List α) :
    l.dropWhile p = [] ∨ (l.dropWhile p).getLast? = l.getLast? := by
  induction l with
  | nil => exact Or.inl rfl
  | cons a l ih =>
      rw [List.dropWhile_cons]
      by_cases h : p a = true
      · simp only [if_pos h]
        rcases ih with h1 | h1
        · exact Or.inl h1
        · by_cases hl : l.dropWhile p = []
          · exact Or.inl hl
          · refine Or.inr ?_
            rw [h1]
            cases l with
            | nil => exact absurd rfl hl
            | cons b m => simp [List.getLast?_cons_cons]
      · refine Or.inr ?_
        rw [if_neg h]

theorem trimChars_head (l : List Char) :
    ((trimChars l).head?.all fun c => !isWs c) = true := by
  unfold trimChars
  rw [List.head?_reverse]
  rcases getLast?_dropWhile_eq isWs ((l.dropWhile isWs).reverse) with h | h
  · rw [h]; rfl
  · rw [h, List.getLast?_reverse]
    exact head?_dropWhile_not isWs l

theorem trimChars_last (l : List Char) :
    ((trimChars l).getLast?.all fun c => !isWs c) = true := by
  unfold trimChars
  rw [List.getLast?_reverse]
  exact head?_dropWhile_not isWs _

theorem noEdgeWs_jsTrim (s : String) : noEdgeWs (jsTrim s) = true := by
  unfold noEdgeWs jsTrim
  rw [Bool.and_eq_true]
  exact ⟨trimChars_head s.data, trimChars_last s.data⟩

theorem trimChars_contained (l : List Char) : trimChars l <:+: l := by
  unfold trimChars
  have h1 : l.dropWhile isWs <:+ l := List.dropWhile_suffix isWs
  have h2 : (l.dropWhile isWs).reverse.dropWhile isWs
      <:+ (l.dropWhile isWs).reverse := List.dropWhile_suffix isWs
  have h3 : ((l.dropWhile isWs).reverse.dropWhile isWs).reverse
      <+: l.dropWhile isWs := List.reverse_suffix.mp (by simpa using h2)
  exact h3.isInfix.trans h1.isInfix

/-! ## Claims -/

/-- C1: the three trapped checks never raise and collapse every failure to
`false`. For every URL, `ping` returns `false` whenever the HTTPS GET throws
for any reason and `true` only when the request succeeds; `hasInternetAccess`
returns `true` iff DNS resolution of `www.google.com` succeeds and `false`
on any resolution error; `isDockerRunning` returns `false` whenever the
`docker version` subprocess fails and `true` otherwise. (Never raising is
expressed by the three functions being total `Bool`-valued functions of the
outcome, whatever it is.) -/
theorem trapped_checks_collapse
    (get : String → Except NetErr Unit) (url : String)
    (resolve : String → Except NetErr (List String))
    (run : String → Except JsErr String) :
    (ping get url = true ↔ ∃ u, get url = .ok u)
    ∧ (∀ e, get url = .error e → ping get url = false)
    ∧ (hasInternetAccess resolve = true
        ↔ ∃ addrs, resolve "www.google.com" = .ok addrs)
    ∧ (∀ e, resolve "www.google.com" = .error e
        → hasInternetAccess resolve = false)
    ∧ (isDockerRunning run = true ↔ ∃ out, run "docker version" = .ok out)
    ∧ (∀ e, run "docker version" = .error e → isDockerRunning run = false) := by
  refine ⟨?_, ?_, ?_, ?_, ?_, ?_⟩
  · cases h : get url <;> simp [ping, h]
  · intro e he; simp [ping, he]
  · cases h : resolve "www.google.com" <;> simp [hasInternetAccess, h]
  · intro e he; simp [hasInternetAccess, he]
  · cases h : run "docker version" <;> simp [isDockerRunning, h]
  · intro e he; simp [isDockerRunning, he]

/-- A network world where every GET times out. -/
def timeoutGet : String → Except NetErr Unit := fun _ => .error .timeout

/-- A DNS world where every lookup resolves. -/
def okResolve : String → Except NetErr (List String) :=
  fun _ => .ok ["142.250.185.68"]

/-- A subprocess world where every command exits non-zero. -/
def failRun : String → Except JsErr String := fun _ => .error .nonZeroExit

theorem trapped_checks_collapse_witness :
    ping timeoutGet "https://metadata.int.thomsonreuters.com" = false
    ∧ hasInternetAccess okResolve = true
    ∧ isDockerRunning failRun = false := by
  have h := trapped_checks_collapse timeoutGet
    "https://metadata.int.thomsonreuters.com" okResolve failRun
  exact ⟨h.2.1 .timeout rfl, h.2.2.1.mpr ⟨["142.250.185.68"], rfl⟩,
    h.2.2.2.2.2 .nonZeroExit rfl⟩

/-- C5: for every command whose subprocess succeeds, `exec` returns the
subprocess's standard output with leading and trailing whitespace stripped —
the result is `jsTrim` of the output, has no whitespace at either edge, and
is a contiguous part of the output — and `exec` propagates the failure when
the process exits non-zero or cannot be spawned. -/
theorem exec_trims_and_propagates
    (run : String → Except JsErr String) (command : String) :
    (∀ out, run command = .ok out →
      exec run command = .ok (jsTrim out)
      ∧ noEdgeWs (jsTrim out) = true
      ∧ (jsTrim out).data <:+: out.data)
    ∧ (∀ e, run command = .error e → exec run command = .error e) := by
  constructor
  · intro out hout
    refine ⟨by unfold exec; rw [hout]; rfl, noEdgeWs_jsTrim out, ?_⟩
    exact trimChars_contained out.data
  · intro e he
    unfold exec
    rw [he]
    rfl

/-- A subprocess world producing `"  develop\n"` for every command. -/
def developRun : String → Except JsErr String := fun _ => .ok "  develop\n"

theorem exec_trims_and_propagates_witness :
    exec developRun "git branch --show-current" = .ok "develop"
    ∧ noEdgeWs "develop" = true := by
  have h := (exec_trims_and_propagates developRun
    "git branch --show-current").1 "  develop\n" rfl
  have e : jsTrim "  develop\n" = "develop" := by decide
  exact ⟨by rw [e] at h; exact h.1, by decide⟩

/-- Line classifier facts used when filtering report output. -/
@[simp] theorem isWarnLine_log (s : String) : isWarnLine (Line.log s) = false := rfl

@[simp] theorem isWarnLine_errorLine (s : String) :
    isWarnLine (Line.errorLine s) = false := rfl

@[simp] theorem isWarnLine_warnLine (s : String) :
    isWarnLine (Line.warnLine s) = true := rfl

@[simp] theorem isErrorLine_log (s : String) :
    isErrorLine (Line.log s) = false := rfl

@[simp] theorem isErrorLine_errorLine (s : String) :
    isErrorLine (Line.errorLine s) = true := rfl

@[simp] theorem isErrorLine_warnLine (s : String) :
    isErrorLine (Line.warnLine s) = false := rfl

/-- A Node-section world with the given installed Node version, `NVM_DIR`
expansion, install birth time and current time; every other aspect is
healthy. -/
def nodeWorldAt (nodeV nvmOut : String) (birth now : Nat) : NodeWorld where
  run := fun c =>
    if c = "node -v" then .ok nodeV
    else if c = "echo $NVM_DIR" then .ok nvmOut
    else if c = "npm -v" then .ok "6.14.6\n"
    else .error .nonZeroExit
  statMomentBirth := .ok birth
  readdirNodeModules := .ok ["moment", "axios", "chalk"]
  nodeEnvVar := some "development"
  nowMs := now

/-- C2 (code bug): with installed version `v14.0.0`, the Node section does
print exactly two error lines for the version check — the mismatch message
and a remediation command — but the remediation is `nvm install 2.18.3`:
`'v12.18.3'.slice(2)` drops the first two characters `v1`, not just the `v`,
so the command does not contain `12.18.3` as the spec requires (and names a
different version altogether). With installed version `v12.18.3`, no error
line is printed. -/
theorem node_version_remediation_digit_lost :
    (nodeSection (nodeWorldAt "v14.0.0\n" "/home/dev/.nvm\n" 0 0)).1.filter
        isErrorLine
      = [Line.errorLine (mismatchMsg "v14.0.0" "v12.18.3"),
         Line.errorLine "nvm install 2.18.3"]
    ∧ containsSub "nvm install 2.18.3" "12.18.3" = false
    ∧ (nodeSection (nodeWorldAt "v12.18.3\n" "/home/dev/.nvm\n" 0 0)).1.filter
        isErrorLine = [] := by
  refine ⟨by decide, by decide, by decide⟩

/-- C3: the stale-dependency warning — the two warning lines recommending a
reinstall — is printed iff the elapsed whole days between the dependency
directory's creation timestamp and the current time is at least 7. -/
theorem stale_warning_iff_seven_days
    (w : NodeWorld) (nodeV nvmRaw npmV : String) (birth : Nat)
    (entries : List String)
    (h1 : w.run "node -v" = .ok nodeV)
    (h2 : w.run "echo $NVM_DIR" = .ok nvmRaw)
    (h3 : w.statMomentBirth = .ok birth)
    (h4 : w.run "npm -v" = .ok npmV)
    (h5 : w.readdirNodeModules = .ok entries) :
    (nodeSection w).1.filter isWarnLine
      = if 7 ≤ diffDays w.nowMs birth then staleWarnLines else [] := by
  have e1 : exec w.run "node -v" = .ok (jsTrim nodeV) := by
    unfold exec; rw [h1]; rfl
  have e2 : exec w.run "echo $NVM_DIR" = .ok (jsTrim nvmRaw) := by
    unfold exec; rw [h2]; rfl
  have e4 : exec w.run "npm -v" = .ok (jsTrim npmV) := by
    unfold exec; rw [h4]; rfl
  by_cases hs : satisfies (jsTrim nodeV) "v12.18.3" = true <;>
    by_cases hn : (jsTrim nvmRaw != "") = true <;>
      by_cases ho : 7 ≤ diffDays w.nowMs birth <;>
        simp [nodeSection, e1, e2, h3, e4, h5, hs, hn, ho, ge_iff_le,
          staleWarnLines, nvmMissingLines, List.filter_append]

theorem stale_warning_iff_seven_days_witness :
    (nodeSection (nodeWorldAt "v12.18.3" "/home/dev/.nvm" 0
        (7 * msPerDay))).1.filter isWarnLine = staleWarnLines
    ∧ (nodeSection (nodeWorldAt "v12.18.3" "/home/dev/.nvm" 0
        (6 * msPerDay))).1.filter isWarnLine = [] := by
  have h7 := stale_warning_iff_seven_days
    (nodeWorldAt "v12.18.3" "/home/dev/.nvm" 0 (7 * msPerDay))
    "v12.18.3" "/home/dev/.nvm" "6.14.6\n" 0 ["moment", "axios", "chalk"]
    rfl rfl rfl rfl rfl
  have h6 := stale_warning_iff_seven_days
    (nodeWorldAt "v12.18.3" "/home/dev/.nvm" 0 (6 * msPerDay))
    "v12.18.3" "/home/dev/.nvm" "6.14.6\n" 0 ["moment", "axios", "chalk"]
    rfl rfl rfl rfl rfl
  constructor
  · rw [h7, if_pos (by decide)]
  · rw [h6, if_neg (by decide)]

/-- C4: the rebase warning is printed iff the computed divergence count `d`
(the `Number` of the `git log … | wc -l` output) strictly exceeds the
threshold 10. -/
theorem rebase_warning_iff_divergence_gt_ten
    (w : GitWorld) (branchRaw countRaw : String) (d : Int)
    (h1 : w.run "git branch --show-current" = .ok branchRaw)
    (h2 : w.run (logCountCmd (jsTrim branchRaw)) = .ok countRaw)
    (h3 : jsNumber (jsTrim countRaw) = some d) :
    (gitSection w).1.filter isWarnLine
      = if d > 10 then [rebaseWarn (jsTrim branchRaw) (some d)] else [] := by
  have e1 : exec w.run "git branch --show-current" = .ok (jsTrim branchRaw) := by
    unfold exec; rw [h1]; rfl
  have e2 : exec w.run (logCountCmd (jsTrim branchRaw)) = .ok (jsTrim countRaw) := by
    unfold exec; rw [h2]; rfl
  by_cases hd : d > 10
  all_goals
    cases e3 : exec w.run "git log -1 --pretty=%B" with
    | error e =>
        simp [gitSection, e1, e2, e3, h3, hd, rebaseWarn, List.filter_append]
    | ok lastCommit =>
        cases e4 : exec w.run "git status --porcelain" with
        | error e =>
            simp [gitSection, e1, e2, e3, e4, h3, hd, rebaseWarn,
              List.filter_append]
        | ok status =>
            simp [gitSection, e1, e2, e3, e4, h3, hd, rebaseWarn,
              List.filter_append]

/-- A Git-section world on branch `feature` whose divergence pipeline
prints `countOut`; the tree is clean. -/
def gitWorldAt (countOut : String) : GitWorld where
  run := fun c =>
    if c = "git branch --show-current" then .ok "feature\n"
    else if c = logCountCmd "feature" then .ok countOut
    else if c = "git log -1 --pretty=%B" then .ok "Add feature\n\n"
    else if c = "git status --porcelain" then .ok ""
    else .error .nonZeroExit

theorem rebase_warning_iff_divergence_gt_ten_witness :
    (gitSection (gitWorldAt "  11\n")).1.filter isWarnLine
      = [rebaseWarn "feature" (some 11)]
    ∧ (gitSection (gitWorldAt "  10\n")).1.filter isWarnLine = [] := by
  have h11 := rebase_warning_iff_divergence_gt_ten (gitWorldAt "  11\n")
    "feature\n" "  11\n" 11 rfl rfl (by decide)
  have h10 := rebase_warning_iff_divergence_gt_ten (gitWorldAt "  10\n")
    "feature\n" "  10\n" 10 rfl rfl (by decide)
  constructor
  · rw [h11]; decide
  · rw [h10]; decide

/-- The length of a repeated-character string. -/
@[simp] theorem repeatChar_length (c : Char) (n : Nat) :
    (repeatChar c n).length = n := by
  simp [repeatChar]

/-- C6 counterexample: at reported width 5 and title `System` (length 6 >
5 − 4), the renderer prints only the five-character divider and raises a
`RangeError`; no banner middle line exists at all, let alone one of visible
length 5 starting with `* System`. -/
theorem banner_counterexample_width_five :
    sectionRender (some 5) "System" ([], none)
      = ([Line.log "====="], some JsErr.rangeError) := by decide

/-- C6 (amended): for every reported terminal width `W` and section title
`T` **with `T.length + 4 ≤ W`**, the banner's middle line rendered by the
section renderer — the second printed line — is the 2-character start marker
`* `, then `T`, then `W − T.length − 4` spaces, then the 2-character end
marker ` *`, and its visible length is exactly `W`. -/
theorem banner_middle_line_width
    (W : Nat) (T : String) (body : BodyResult) (h : T.length + 4 ≤ W) :
    (sectionRender (some W) T body).1[1]?
      = some (Line.log
          ("* " ++ T ++ repeatChar ' ' (W - T.length - 4) ++ " *"))
    ∧ ("* " ++ T ++ repeatChar ' ' (W - T.length - 4) ++ " *").length = W := by
  have hn : ¬(T.length + 4 > W) := by omega
  constructor
  · simp only [sectionRender]
    rw [if_neg hn]
    obtain ⟨ls, oe⟩ := body
    cases oe <;> rfl
  · have e2 : ("* " : String).length = 2 := rfl
    have e3 : (" *" : String).length = 2 := rfl
    simp [e2, e3]
    omega

theorem banner_middle_line_width_witness :
    (sectionRender (some 20) "System" ([], none)).1[1]?
      = some (Line.log "* System           *")
    ∧ ("* System           *" : String).length = 20 := by
  have h := banner_middle_line_width 20 "System" ([], none) (by decide)
  have e : "* " ++ "System" ++ repeatChar ' ' (20 - "System".length - 4) ++ " *"
      = "* System           *" := by decide
  exact ⟨by rw [h.1, e], by decide⟩

/-- C8: when the reported width `W` is a defined positive integer and the
title is longer than `W − 4`, the renderer prints the first divider and then
raises a `RangeError` (from `' '.repeat` applied to a negative count) before
the body is invoked: whatever the body would print or raise, the section's
output is the single divider line and the error, so the section's checks
never run. -/
theorem narrow_terminal_raises_rangeError
    (W : Nat) (T : String) (body : BodyResult)
    (hpos : 0 < W) (hlen : W - 4 < T.length) :
    sectionRender (some W) T body
      = ([Line.log (repeatChar '=' W)], some JsErr.rangeError) := by
  have hy : T.length + 4 > W := by omega
  simp only [sectionRender]
  rw [if_pos hy]

theorem narrow_terminal_raises_rangeError_witness :
    sectionRender (some 5) "Hello, world"
        ([Line.log "a body line"], none)
      = ([Line.log "====="], some JsErr.rangeError) := by
  have h := narrow_terminal_raises_rangeError 5 "Hello, world"
    ([Line.log "a body line"], none) (by decide) (by decide)
  rw [h]
  decide

/-- C9: when `process.stdout.columns` is undefined, the renderer never
raises for any title: both `repeat` counts coerce their `NaN` to zero, so
the two divider lines are printed as empty strings, the banner line is just
the start marker, the title and the end marker, the body's lines still
appear, and the trailing blank line closes a body that completed. -/
theorem undefined_columns_degenerate_banner (T : String) (ls : List Line) :
    sectionRender none T (ls, none)
      = ([Line.log "", Line.log ("* " ++ T ++ " *"), Line.log ""]
          ++ ls ++ [Line.log ""], none) := by
  rfl

/-- C7: when the `fs.stat('./node_modules/moment')` read fails (the
dependency package directory does not exist), the failure propagates
uncaught out of the Node section body: the stat happens while the section's
values are being computed, before the first `log`, so none of the section's
remaining checks — version print, npm, nvm, env, module count, install
age — executes or prints, and the section aborts with the stat's error. -/
theorem missing_moment_dir_aborts_node_section
    (w : NodeWorld) (nodeV nvmRaw : String) (e : JsErr)
    (h1 : w.run "node -v" = .ok nodeV)
    (h2 : w.run "echo $NVM_DIR" = .ok nvmRaw)
    (h3 : w.statMomentBirth = .error e) :
    nodeSection w = ([], some e) := by
  have e1 : exec w.run "node -v" = .ok (jsTrim nodeV) := by
    unfold exec; rw [h1]; rfl
  have e2 : exec w.run "echo $NVM_DIR" = .ok (jsTrim nvmRaw) := by
    unfold exec; rw [h2]; rfl
  simp [nodeSection, e1, e2, h3]

/-- A Node-section world whose `./node_modules/moment` directory is
missing; every subprocess succeeds. -/
def missingMomentWorld : NodeWorld where
  run := fun c =>
    if c = "node -v" then .ok "v12.18.3\n"
    else if c = "echo $NVM_DIR" then .ok "/home/dev/.nvm\n"
    else if c = "npm -v" then .ok "6.14.6\n"
    else .error .nonZeroExit
  statMomentBirth := .error .noEnt
  readdirNodeModules := .ok []
  nodeEnvVar := some "development"
  nowMs := 0

theorem missing_moment_dir_aborts_node_section_witness :
    nodeSection missingMomentWorld = ([], some JsErr.noEnt) :=
  missing_moment_dir_aborts_node_section missingMomentWorld
    "v12.18.3\n" "/home/dev/.nvm\n" .noEnt rfl rfl rfl

/-- C10: the version-manager detection computes
`hasNvm = (trim of the subshell echo output ≠ "")` — the printed `nvm:`
line carries exactly that boolean — and, the echo having exited zero (it
does even when `NVM_DIR` is unset, which is the premise `h2` here), the
detection aborts nothing: when the trimmed expansion is empty the two
missing-nvm error lines are printed and the section still goes on to print
the `Env:` check that follows them. -/
theorem hasNvm_detection
    (w : NodeWorld) (nodeV nvmRaw npmV : String) (birth : Nat)
    (h1 : w.run "node -v" = .ok nodeV)
    (h2 : w.run "echo $NVM_DIR" = .ok nvmRaw)
    (h3 : w.statMomentBirth = .ok birth)
    (h4 : w.run "npm -v" = .ok npmV) :
    Line.log ("nvm: " ++ toString (jsTrim nvmRaw != "")) ∈ (nodeSection w).1
    ∧ (jsTrim nvmRaw = "" →
        Line.errorLine "Node version manager missing; please install nvm."
          ∈ (nodeSection w).1
        ∧ Line.errorLine "https://github.com/nvm-sh/nvm" ∈ (nodeSection w).1)
    ∧ Line.log ("Env: " ++ showEnvVar w.nodeEnvVar) ∈ (nodeSection w).1 := by
  have e1 : exec w.run "node -v" = .ok (jsTrim nodeV) := by
    unfold exec; rw [h1]; rfl
  have e2 : exec w.run "echo $NVM_DIR" = .ok (jsTrim nvmRaw) := by
    unfold exec; rw [h2]; rfl
  have e4 : exec w.run "npm -v" = .ok (jsTrim npmV) := by
    unfold exec; rw [h4]; rfl
  cases h5 : w.readdirNodeModules <;>
    exact ⟨by simp [nodeSection, e1, e2, h3, e4, h5],
      fun hn =>
        ⟨by simp [nodeSection, e1, e2, h3, e4, h5, hn, nvmMissingLines],
         by simp [nodeSection, e1, e2, h3, e4, h5, hn, nvmMissingLines]⟩,
      by simp [nodeSection, e1, e2, h3, e4, h5]⟩

/-- A Node-section world where `NVM_DIR` is unset: the subshell echo still
succeeds and prints a bare newline. -/
def noNvmWorld : NodeWorld where
  run := fun c =>
    if c = "node -v" then .ok "v12.18.3\n"
    else if c = "echo $NVM_DIR" then .ok "\n"
    else if c = "npm -v" then .ok "6.14.6\n"
    else .error .nonZeroExit
  statMomentBirth := .ok 0
  readdirNodeModules := .ok ["moment"]
  nodeEnvVar := some "development"
  nowMs := 0

theorem hasNvm_detection_witness :
    Line.log "nvm: false" ∈ (nodeSection noNvmWorld).1
    ∧ Line.errorLine "Node version manager missing; please install nvm."
        ∈ (nodeSection noNvmWorld).1
    ∧ Line.errorLine "https://github.com/nvm-sh/nvm"
        ∈ (nodeSection noNvmWorld).1 := by
  have h := hasNvm_detection noNvmWorld "v12.18.3\n" "\n" "6.14.6\n" 0
    rfl rfl rfl rfl
  have e : ("nvm: " ++ toString (jsTrim "\n" != "")) = "nvm: false" := by
    decide
  have hn : jsTrim "\n" = "" := by decide
  exact ⟨e ▸ h.1, (h.2.1 hn).1, (h.2.1 hn).2⟩

end DebugScript
